import Mathlib

/-!
Shallow embedding of the NFC-B decoder core
(src/src/nfc-lib/lib-nfc/nfc-decode/src/main/cpp/type/NfcB.cpp together with
the constants of src/.../include/nfc/Nfc.h).

Modelling conventions:
* machine integers become `Nat` / `Int` with explicit `% 2^w` where the C++
  code truncates (casts to `unsigned char` / `unsigned short`, `& 0xff`);
* `float` quantities (signal samples, integrators, thresholds, timing
  budgets) are modelled as exact rationals `ℚ`; the `NAN` written into
  `symbolPhase` by `resetModulation` is modelled as `Option ℚ` with `none`;
* sample-clock times are modelled as `Int`;
* the signal ring buffer is abstracted: each per-sample step receives the
  three delayed sample values (`signalData`, `filterData`, `detectData`)
  that the source fetches through `offsetSignalIndex`/`offsetFilterIndex`/
  `offsetDetectIndex`; the index bookkeeping itself is memory layout and is
  not represented;
* the surrounding `DecoderStatus`, `NfcFrame`, `StreamStatus`, … headers are
  not part of the provided sources; their fields and accessors are modelled
  from the spec where noted.
-/

namespace NfcB

/-- Pattern types of decoded symbols (enum `PatternType` in NfcB.cpp). -/
inductive PatternType
  | Invalid
  | NoPattern
  | PatternL
  | PatternH
deriving DecidableEq

/-- Numeric value of the `PatternType` enum (Invalid = 0, NoPattern = 1,
PatternL = 2, PatternH = 3), used for the `pattern > NoPattern` loop guard. -/
def PatternType.code : PatternType → ℕ
  | .Invalid => 0
  | .NoPattern => 1
  | .PatternL => 2
  | .PatternH => 3

/-- `FrameType::PollFrame` (Nfc.h). -/
def PollFrame : ℕ := 2

/-- `FrameType::ListenFrame` (Nfc.h). -/
def ListenFrame : ℕ := 3

/-- `FramePhase::SelectionFrame` (Nfc.h). -/
def SelectionFrame : ℕ := 1

/-- `FramePhase::ApplicationFrame` (Nfc.h). -/
def ApplicationFrame : ℕ := 2

/-- `FrameFlags::Truncated` (Nfc.h). -/
def TruncatedFlag : ℕ := 0x08

/-- `FrameFlags::CrcError` (Nfc.h). -/
def CrcErrorFlag : ℕ := 0x20

/-- Modelled from the spec: `CommandType::NFCA_REQB` — the REQB/WUPB command
byte 0x05 (the `CommandType` enumeration is not among the provided sources;
the spec fixes the REQB command byte as 0x05). -/
def NFCA_REQB : ℕ := 0x05

/-! ## Data model -/

/-- Per-rate symbol parameters (`BitrateParams`), as computed by
`NfcB::Impl::configure`. The ring-buffer index offsets
(`offsetSignalIndex` …) are memory-layout bookkeeping for the abstracted
signal window and are not represented. -/
structure BitrateParams where
  techType : ℕ
  rateType : ℕ
  symbolsPerSecond : ℚ
  period1SymbolSamples : ℤ
  period2SymbolSamples : ℤ
  period4SymbolSamples : ℤ
  period8SymbolSamples : ℤ
  symbolDelayDetect : ℤ
  symbolAverageW0 : ℚ
  symbolAverageW1 : ℚ
deriving DecidableEq

/-- Mutable demodulation state (`ModulationStatus`), fields as used by
NfcB.cpp. `symbolPhase` is a float that `resetModulation` sets to `NAN`,
modelled as `Option ℚ` with `none` for `NAN`. The per-sample ring-buffer
indices (`signalIndex` …) are not represented (the delayed sample values
are supplied directly to each step). -/
structure ModulationStatus where
  searchStage : ℕ
  searchStartTime : ℤ
  searchEndTime : ℤ
  searchPeakTime : ℤ
  searchPulseWidth : ℤ
  searchDeepValue : ℚ
  symbolAverage : ℚ
  symbolPhase : Option ℚ
  correlationPeek : ℚ
  detectorPeek : ℚ
  symbolStartTime : ℤ
  symbolEndTime : ℤ
  symbolSyncTime : ℤ
  filterIntegrate : ℚ
  detectIntegrate : ℚ
  phaseIntegrate : ℚ
deriving DecidableEq

/-- All-zero `ModulationStatus` (the `{0,}` initialiser). -/
def ModulationStatus.init : ModulationStatus :=
  { searchStage := 0, searchStartTime := 0, searchEndTime := 0
    searchPeakTime := 0, searchPulseWidth := 0, searchDeepValue := 0
    symbolAverage := 0, symbolPhase := some 0, correlationPeek := 0
    detectorPeek := 0, symbolStartTime := 0, symbolEndTime := 0
    symbolSyncTime := 0, filterIntegrate := 0, detectIntegrate := 0
    phaseIntegrate := 0 }

/-- Detected-symbol state (`SymbolStatus`). -/
structure SymbolStatus where
  value : ℕ
  start : ℤ
  stop : ℤ
  length : ℤ
  pattern : PatternType
deriving DecidableEq

/-- All-zero `SymbolStatus`. -/
def SymbolStatus.init : SymbolStatus :=
  { value := 0, start := 0, stop := 0, length := 0, pattern := .Invalid }

/-- Bit-stream framing state (`StreamStatus`). The fixed `unsigned char`
buffer is modelled as the list of bytes stored so far (`bytes` counts
them, as in the source). -/
structure StreamStatus where
  buffer : List ℕ
  bytes : ℕ
  data : ℕ
  bits : ℕ
deriving DecidableEq

/-- All-zero `StreamStatus`. -/
def StreamStatus.init : StreamStatus :=
  { buffer := [], bytes := 0, data := 0, bits := 0 }

/-- Frame-processing state (`FrameStatus`). Modelled from the spec where
the header is not among the provided sources: timing budgets are kept as
exact rationals in sample counts. -/
structure FrameStatus where
  lastCommand : ℕ
  frameType : ℕ
  frameStart : ℤ
  frameEnd : ℤ
  guardEnd : ℚ
  waitingEnd : ℚ
  frameGuardTime : ℚ
  frameWaitingTime : ℚ
  startUpGuardTime : ℚ
  requestGuardTime : ℚ
  symbolRate : ℚ
deriving DecidableEq

/-- All-zero `FrameStatus`. -/
def FrameStatus.init : FrameStatus :=
  { lastCommand := 0, frameType := 0, frameStart := 0, frameEnd := 0
    guardEnd := 0, waitingEnd := 0, frameGuardTime := 0
    frameWaitingTime := 0, startUpGuardTime := 0, requestGuardTime := 0
    symbolRate := 0 }

/-- Protocol parameters (`ProtocolStatus`): integer sample counts (the
source assigns them through C++ `int(...)` casts). -/
structure ProtocolStatus where
  maxFrameSize : ℕ
  startUpGuardTime : ℤ
  frameGuardTime : ℤ
  frameWaitingTime : ℤ
  requestGuardTime : ℤ
deriving DecidableEq

/-- All-zero `ProtocolStatus`. -/
def ProtocolStatus.init : ProtocolStatus :=
  { maxFrameSize := 0, startUpGuardTime := 0, frameGuardTime := 0
    frameWaitingTime := 0, requestGuardTime := 0 }

/-- Output frame artifact. Modelled from the spec (the `NfcFrame` class is
not among the provided sources): tech type, frame type, symbol rate,
sample/time boundaries, payload bytes, flags bitmask and protocol phase. -/
structure NfcFrame where
  techType : ℕ
  frameType : ℕ
  frameRate : ℚ
  sampleStart : ℤ
  sampleEnd : ℤ
  timeStart : ℚ
  timeEnd : ℚ
  flags : ℕ
  phase : ℕ
  payload : List ℕ
deriving DecidableEq

/-- Modelled from the spec: `NfcFrame::setFrameFlags` ORs into the flags
bitmask. -/
def NfcFrame.setFrameFlags (f : NfcFrame) (flags : ℕ) : NfcFrame :=
  { f with flags := f.flags ||| flags }

/-- Modelled from the spec: `NfcFrame::setFramePhase` sets the protocol
phase. -/
def NfcFrame.setFramePhase (f : NfcFrame) (phase : ℕ) : NfcFrame :=
  { f with phase := phase }

/-- Modelled from the spec: `NfcFrame::isPollFrame`. -/
def NfcFrame.isPollFrame (f : NfcFrame) : Bool :=
  f.frameType == PollFrame

/-- Modelled from the spec: `NfcFrame::isListenFrame`. -/
def NfcFrame.isListenFrame (f : NfcFrame) : Bool :=
  f.frameType == ListenFrame

/-- Modelled from the spec: `NfcFrame::limit` — the number of payload bytes
of the flipped frame. -/
def NfcFrame.limit (f : NfcFrame) : ℕ :=
  f.payload.length

/-- The state of `NfcB::Impl` (the decoder-owned selector pointers
`decoder->bitrate` / `decoder->modulation` are modelled as optional indices
into the per-rate arrays). -/
structure Impl where
  bitrateParams : Fin 4 → BitrateParams
  modulationStatus : Fin 4 → ModulationStatus
  symbolStatus : SymbolStatus
  streamStatus : StreamStatus
  frameStatus : FrameStatus
  protocolStatus : ProtocolStatus
  minimumModulationThreshold : ℚ
  maximumModulationThreshold : ℚ
  lastFrameEnd : ℤ
  chainedFlags : ℕ
  bitrateSel : Option (Fin 4)
  modulationSel : Option (Fin 4)

/-- Zero `BitrateParams` (the `{0,}` initialiser). -/
def BitrateParams.init : BitrateParams :=
  { techType := 0, rateType := 0
    symbolsPerSecond := 0, period1SymbolSamples := 0, period2SymbolSamples := 0
    period4SymbolSamples := 0, period8SymbolSamples := 0, symbolDelayDetect := 0
    symbolAverageW0 := 0, symbolAverageW1 := 0 }

/-- Freshly constructed `Impl` (default thresholds 0.10 and 0.50). -/
def Impl.init : Impl :=
  { bitrateParams := fun _ => .init, modulationStatus := fun _ => .init
    symbolStatus := .init, streamStatus := .init, frameStatus := .init
    protocolStatus := .init, minimumModulationThreshold := 1/10
    maximumModulationThreshold := 1/2, lastFrameEnd := 0, chainedFlags := 0
    bitrateSel := none, modulationSel := none }

/-- Pointwise update of a per-rate array at one index. -/
def setMod (f : Fin 4 → ModulationStatus) (i : Fin 4) (v : ModulationStatus) :
    Fin 4 → ModulationStatus :=
  fun j => if j = i then v else f j

/-- Decoder-level sampling parameters consumed by the core. Modelled from
the spec: `sampleTimeUnit = sampleRate / 13.56 MHz` (the `DecoderStatus`
header is not among the provided sources). -/
structure DecoderParams where
  sampleRate : ℕ
  sampleTimeUnit : ℚ

/-- `sampleTimeUnit` as the enclosing decoder computes it. -/
def DecoderParams.ofRate (sampleRate : ℕ) : DecoderParams :=
  { sampleRate := sampleRate, sampleTimeUnit := (sampleRate : ℚ) / 13560000 }

/-- C++ `int(x)` cast of a floating value: truncation toward zero. -/
def truncInt (x : ℚ) : ℤ :=
  if 0 ≤ x then ⌊x⌋ else ⌈x⌉

/-! ## CRC-16 (`NfcB::Impl::checkCrc`) -/

/-- One byte-wise update of the ISO/IEC 13239 CRC register, translated from
the loop body of `checkCrc`:
`d = (unsigned char) frame[i]; d ^= crc & 0xff; d ^= d << 4;`
`crc = (crc >> 8) ^ (d << 8) ^ (d << 3) ^ (d >> 4);`
with the 8-bit truncations of the `unsigned char` variable `d` and the
16-bit truncation of the `unsigned short` register written as `% 256` and
`% 65536`. -/
def crc16Update (crc b : ℕ) : ℕ :=
  let d := b % 256
  let d := (d ^^^ (crc % 256)) % 256
  let d := (d ^^^ ((d <<< 4) % 256)) % 256
  ((crc >>> 8) ^^^ ((d <<< 8) % 65536) ^^^ ((d <<< 3) % 65536) ^^^ (d >>> 4)) % 65536

/-- The CRC-16 of a byte sequence: register initialised to 0xFFFF, folded
with `crc16Update`, and complemented (`crc = ~crc` on `unsigned short`,
i.e. XOR with 0xFFFF). -/
def crc16 (data : List ℕ) : ℕ :=
  (data.foldl crc16Update 0xFFFF) ^^^ 0xFFFF

/-- `NfcB::Impl::checkCrc`: frames of length ≤ 2 fail; otherwise the CRC of
the first `length − 2` bytes is compared with the little-endian trailer
`frame[length−2] | (frame[length−1] << 8)` (the `& 0xff` byte masks of the
source are written `% 256`). -/
def checkCrc (frame : List ℕ) : Bool :=
  let length := frame.length
  if length ≤ 2 then
    false
  else
    let crc := crc16 (frame.take (length - 2))
    let res := (frame.getD (length - 2) 0 % 256) ||| ((frame.getD (length - 1) 0 % 256) <<< 8)
    res == crc

theorem crc16Update_lt (crc b : ℕ) : crc16Update crc b < 65536 :=
  Nat.mod_lt _ (by norm_num)

theorem crc16_foldl_lt (data : List ℕ) (crc : ℕ) (h : crc < 65536) :
    data.foldl crc16Update crc < 65536 := by
  induction data generalizing crc with
  | nil => exact h
  | cons x xs ih => exact ih _ (crc16Update_lt _ _)

theorem crc16_lt (data : List ℕ) : crc16 data < 65536 := by
  have h1 : data.foldl crc16Update 0xFFFF < 2 ^ 16 :=
    crc16_foldl_lt data 0xFFFF (by norm_num)
  have h2 : (0xFFFF : ℕ) < 2 ^ 16 := by norm_num
  have := Nat.xor_lt_two_pow h1 h2
  simpa [crc16] using this

theorem lor_low_high (c : ℕ) (h : c < 65536) :
    (c % 256) ||| ((c / 256) <<< 8) = c := by
  have hlow : c % 256 < 2 ^ 8 := Nat.mod_lt _ (by norm_num)
  have hor : 2 ^ 8 * (c / 256) + c % 256 = 2 ^ 8 * (c / 256) ||| c % 256 :=
    Nat.mul_add_lt_is_or hlow _
  have hshift : (c / 256) <<< 8 = c / 256 * 2 ^ 8 := Nat.shiftLeft_eq _ _
  calc (c % 256) ||| ((c / 256) <<< 8)
      = (c / 256) <<< 8 ||| c % 256 := Nat.lor_comm _ _
    _ = 2 ^ 8 * (c / 256) ||| c % 256 := by rw [hshift, Nat.mul_comm]
    _ = 2 ^ 8 * (c / 256) + c % 256 := hor.symm
    _ = c := by omega

theorem checkCrc_roundtrip (payload : List ℕ) (hne : payload ≠ []) :
    checkCrc (payload ++ [crc16 payload % 256, crc16 payload / 256]) = true := by
  have hc : crc16 payload < 65536 := crc16_lt payload
  have hlen : (payload ++ [crc16 payload % 256, crc16 payload / 256]).length
      = payload.length + 2 := by simp
  have hpos : 0 < payload.length := List.length_pos.mpr hne
  unfold checkCrc
  rw [hlen]
  rw [if_neg (by omega)]
  have htake : (payload ++ [crc16 payload % 256, crc16 payload / 256]).take
      (payload.length + 2 - 2) = payload := by
    simp [List.take_append_of_le_length]
  have hget1 : (payload ++ [crc16 payload % 256, crc16 payload / 256]).getD
      (payload.length + 2 - 2) 0 = crc16 payload % 256 := by
    rw [show payload.length + 2 - 2 = payload.length from rfl]
    rw [List.getD_append_right _ _ _ _ (le_refl _)]
    simp
  have hget2 : (payload ++ [crc16 payload % 256, crc16 payload / 256]).getD
      (payload.length + 2 - 1) 0 = crc16 payload / 256 := by
    rw [show payload.length + 2 - 1 = payload.length + 1 from rfl]
    rw [List.getD_append_right _ _ _ _ (by omega)]
    simp
  rw [htake, hget1, hget2]
  have hdiv : crc16 payload / 256 < 256 := by omega
  rw [Nat.mod_mod_of_dvd _ dvd_rfl, Nat.mod_eq_of_lt hdiv, lor_low_high _ hc]
  exact beq_self_eq_true _

/-- C1 (counterexample to the claim as stated): the claim's final sentence
quantifies over every payload, but for the empty payload the frame
`payload ++ crc16(payload)` has length 2 and `checkCrc` rejects it, so the
round-trip fails. -/
theorem claim_C1_cex :
    checkCrc (([] : List ℕ) ++ [crc16 [] % 256, crc16 [] / 256]) = false := by
  decide

/-- C1 (amended): for frames of length ≥ 3, `checkCrc` returns true iff the
ISO 13239 CRC-16 of the first `length − 2` bytes (register 0xFFFF, byte-wise
update as in `crc16Update`, final complement) equals the little-endian
trailer `frame[length−2] | (frame[length−1] << 8)`; frames of length ≤ 2
always fail; and every NONEMPTY payload followed by its own CRC-16 in
little-endian passes the check. -/
theorem claim_C1 :
    (∀ frame : List ℕ, frame.length ≤ 2 → checkCrc frame = false) ∧
    (∀ frame : List ℕ, 2 < frame.length →
      (checkCrc frame = true ↔
        (frame.getD (frame.length - 2) 0 % 256) |||
            ((frame.getD (frame.length - 1) 0 % 256) <<< 8)
          = crc16 (frame.take (frame.length - 2)))) ∧
    (∀ payload : List ℕ, payload ≠ [] →
      checkCrc (payload ++ [crc16 payload % 256, crc16 payload / 256]) = true) := by
  refine ⟨?_, ?_, checkCrc_roundtrip⟩
  · intro frame h
    unfold checkCrc
    rw [if_pos h]
  · intro frame h
    unfold checkCrc
    rw [if_neg (by omega)]
    exact beq_iff_eq

/-! ## Configuration (`NfcB::Impl::configure`) -/

/-- One rate's `BitrateParams` as filled in by the configure loop
(`BaseFrequency` is the 13.56 MHz carrier, `NFC_FC` of Nfc.h; C++
`round` agrees with `round : ℚ → ℤ` on the nonnegative values that occur
here). -/
def bitrateFor (stu : ℚ) (rate : ℕ) (delay : ℤ) : BitrateParams :=
  let period1 : ℤ := round (stu * ((128 >>> rate : ℕ) : ℚ))
  let w0 : ℚ := 1 - 5 / (period1 : ℚ)
  { techType := 2
    rateType := rate
    symbolsPerSecond := 13560000 / ((128 >>> rate : ℕ) : ℚ)
    period1SymbolSamples := period1
    period2SymbolSamples := round (stu * ((64 >>> rate : ℕ) : ℚ))
    period4SymbolSamples := round (stu * ((32 >>> rate : ℕ) : ℚ))
    period8SymbolSamples := round (stu * ((16 >>> rate : ℕ) : ℚ))
    symbolDelayDetect := delay
    symbolAverageW0 := w0
    symbolAverageW1 := 1 - w0 }

/-- `NfcB::Impl::configure`: clears the symbol/stream/frame state, computes
`BitrateParams` and clears `ModulationStatus` for the rates 106k/212k/424k,
and loads the default protocol and frame timing parameters. The function is
total: the source has no error path. (The exponential power/signal-average
weights it stores into the decoder-owned signal parameters are outside this
core's state and are not represented; log output is ignored.) -/
def configure (sampleRate : ℕ) (s : Impl) : Impl :=
  let stu : ℚ := (sampleRate : ℚ) / 13560000
  let b0 := bitrateFor stu 0 0
  let b1 := bitrateFor stu 1 (b0.symbolDelayDetect + b0.period1SymbolSamples)
  let b2 := bitrateFor stu 2 (b1.symbolDelayDetect + b1.period1SymbolSamples)
  let protocol : ProtocolStatus :=
    { maxFrameSize := 256
      startUpGuardTime := truncInt (stu * 256 * 16 * 1)
      frameWaitingTime := truncInt (stu * 256 * 16 * 16)
      frameGuardTime := truncInt (stu * 128 * 7)
      requestGuardTime := truncInt (stu * 7000) }
  { s with
    symbolStatus := .init
    streamStatus := .init
    lastFrameEnd := 0
    chainedFlags := 0
    bitrateParams := fun i =>
      if i.val = 0 then b0 else if i.val = 1 then b1
      else if i.val = 2 then b2 else s.bitrateParams i
    modulationStatus := fun i =>
      if i.val ≤ 2 then .init else s.modulationStatus i
    protocolStatus := protocol
    frameStatus :=
      { FrameStatus.init with
        startUpGuardTime := (protocol.startUpGuardTime : ℚ)
        frameWaitingTime := (protocol.frameWaitingTime : ℚ)
        frameGuardTime := (protocol.frameGuardTime : ℚ)
        requestGuardTime := (protocol.requestGuardTime : ℚ) } }

/-! ## Reset (`NfcB::Impl::resetModulation`) -/

/-- The per-rate clearing performed by the `resetModulation` loop: exactly
the fields `searchStage`, `searchStartTime`, `searchEndTime`,
`searchPulseWidth`, `searchDeepValue`, `symbolAverage`, `symbolPhase`
(set to `NAN`), `detectorPeek` and `correlationPeek`. All other fields
(`searchPeakTime`, the integrators, the symbol start/end/sync times …)
are left unchanged. -/
def resetRate (m : ModulationStatus) : ModulationStatus :=
  { m with
    searchStage := 0, searchStartTime := 0, searchEndTime := 0
    searchPulseWidth := 0, searchDeepValue := 0, symbolAverage := 0
    symbolPhase := none, detectorPeek := 0, correlationPeek := 0 }

/-- `NfcB::Impl::resetModulation`: applies `resetRate` to the rates
106k/212k/424k, zeroes `streamStatus` and `symbolStatus`, clears
`frameType`/`frameStart`/`frameEnd` and detaches the active bitrate and
modulation selections. -/
def resetModulation (s : Impl) : Impl :=
  { s with
    modulationStatus := fun i =>
      if i.val ≤ 2 then resetRate (s.modulationStatus i) else s.modulationStatus i
    streamStatus := .init
    symbolStatus := .init
    frameStatus := { s.frameStatus with frameType := 0, frameStart := 0, frameEnd := 0 }
    bitrateSel := none
    modulationSel := none }

/-- C1 witness: the amended theorem applied at concrete inputs. -/
theorem claim_C1_witness :
    checkCrc [0x05, 0x00] = false ∧
    checkCrc ([0x05] ++ [crc16 [0x05] % 256, crc16 [0x05] / 256]) = true :=
  ⟨claim_C1.1 [0x05, 0x00] (by decide),
   claim_C1.2.2 [0x05] (by decide)⟩

/-! ## Protocol classifier (`process`, `processREQB`, `processOther`) -/

/-- `NfcB::Impl::processREQB`, translated with the two consecutive `if`
blocks of the source flattened into a conditional chain (a poll frame that
fails the inner `frame[0] == 0x05 && frame.limit() == 5` test falls through
both blocks and returns false). Returns the handled flag together with the
updated state and frame. -/
def processREQB (dp : DecoderParams) (frame : NfcFrame) (s : Impl) :
    Bool × Impl × NfcFrame :=
  if frame.isPollFrame ∧ frame.payload.getD 0 0 = NFCA_REQB ∧ frame.limit = 5 then
    let s :=
      { s with
        frameStatus :=
          { s.frameStatus with
            lastCommand := frame.payload.getD 0 0
            frameGuardTime := dp.sampleTimeUnit * 128 * 7
            frameWaitingTime := dp.sampleTimeUnit * 128 * 18 }
        protocolStatus :=
          { s.protocolStatus with
            maxFrameSize := 256
            frameGuardTime := truncInt (dp.sampleTimeUnit * 128 * 7)
            frameWaitingTime := truncInt (dp.sampleTimeUnit * 256 * 16 * 16) }
        chainedFlags := 0 }
    let frame := frame.setFramePhase SelectionFrame
    let frame := frame.setFrameFlags (if ¬ checkCrc frame.payload then CrcErrorFlag else 0)
    (true, s, frame)
  else if frame.isListenFrame ∧ s.frameStatus.lastCommand = NFCA_REQB then
    (true, s, frame.setFramePhase SelectionFrame)
  else
    (false, s, frame)

/-- `NfcB::Impl::processOther`: phase `ApplicationFrame` plus the CRC flag. -/
def processOther (frame : NfcFrame) (s : Impl) : Impl × NfcFrame :=
  (s, (frame.setFramePhase ApplicationFrame).setFrameFlags
        (if ¬ checkCrc frame.payload then CrcErrorFlag else 0))

/-- The entry step of `process`: for a poll frame the default frame
waiting time is (re)loaded from the protocol parameters before
classification. -/
def processEntry (frame : NfcFrame) (s : Impl) : Impl :=
  if frame.isPollFrame then
    { s with frameStatus :=
      { s.frameStatus with
        frameWaitingTime := (s.protocolStatus.frameWaitingTime : ℚ) } }
  else s

/-- `NfcB::Impl::process`: dispatches to `processREQB` (all other command
handlers in the source are commented out) or `processOther`, applies the
chained flags, and for poll frames with an active bitrate computes the
response guard/waiting windows and arms the listen-frame expectation. -/
def process (dp : DecoderParams) (frame : NfcFrame) (s : Impl) : Impl × NfcFrame :=
  let s := processEntry frame s
  let r := processREQB dp frame s
  let u := if r.1 then r.2 else processOther r.2.2 r.2.1
  let s := u.1
  let frame := u.2.setFrameFlags s.chainedFlags
  let s :=
    if frame.isPollFrame then
      match s.bitrateSel with
      | some i =>
        { s with frameStatus :=
          { s.frameStatus with
            guardEnd := (s.frameStatus.frameEnd : ℚ) + s.frameStatus.frameGuardTime
              + ((s.bitrateParams i).symbolDelayDetect : ℚ)
            waitingEnd := (s.frameStatus.frameEnd : ℚ) + s.frameStatus.frameWaitingTime
              + ((s.bitrateParams i).symbolDelayDetect : ℚ)
            frameType := ListenFrame } }
      | none => s
    else
      { s with frameStatus :=
        { s.frameStatus with frameType := 0, lastCommand := 0 } }
  ({ s with
     lastFrameEnd := s.frameStatus.frameEnd
     frameStatus := { s.frameStatus with frameStart := 0, frameEnd := 0 } },
   frame)

/-- C2 (counterexample to the claim as stated): at `sampleRate = 500 kHz`
(below any reading of "4 × base frequency", with `period1 = 5 < 8`)
`configure` does not fail — the source has no failure path at all — and
completes its initialization normally. -/
theorem claim_C2_cex :
    ((configure 500000 Impl.init).bitrateParams 0).period1SymbolSamples = 5 ∧
    (configure 500000 Impl.init).protocolStatus.maxFrameSize = 256 := by
  constructor
  · show round ((500000 : ℚ) / 13560000 * ((128 : ℕ) : ℚ)) = 5
    norm_num [round_eq]
  · rfl

/-- C2 (amended): `configure` has NO failure mode: for every sample rate —
including rates for which `period1SymbolSamples` falls below 8 — it
completes the same initialization (protocol defaults loaded, stream/symbol
state cleared, bitrate tables computed without any bound check on
`period1SymbolSamples`); no `ConfigError` exists in this code. -/
theorem claim_C2 (sampleRate : ℕ) (s : Impl) :
    (configure sampleRate s).protocolStatus.maxFrameSize = 256 ∧
    (configure sampleRate s).protocolStatus.frameGuardTime
      = truncInt ((sampleRate : ℚ) / 13560000 * 128 * 7) ∧
    (configure sampleRate s).streamStatus = StreamStatus.init ∧
    (configure sampleRate s).symbolStatus = SymbolStatus.init ∧
    (configure sampleRate s).chainedFlags = 0 ∧
    (configure sampleRate s).lastFrameEnd = 0 ∧
    ((configure sampleRate s).bitrateParams 0).period1SymbolSamples
      = round ((sampleRate : ℚ) / 13560000 * 128) := by
  refine ⟨rfl, rfl, rfl, rfl, rfl, rfl, ?_⟩
  show round ((sampleRate : ℚ) / 13560000 * ((128 : ℕ) : ℚ))
      = round ((sampleRate : ℚ) / 13560000 * 128)
  norm_num

/-- C9 (counterexample to the claim as stated): `resetModulation` does NOT
clear `searchPeakTime`, the filter/detect integrators, or the symbol
start/end/sync times — on a state where they are 7 they are still 7 after
the reset. -/
theorem claim_C9_cex :
    ((resetModulation { Impl.init with
        modulationStatus := fun _ =>
          { ModulationStatus.init with
            searchPeakTime := 7, filterIntegrate := 7, detectIntegrate := 7
            symbolStartTime := 7, symbolEndTime := 7, symbolSyncTime := 7 } }
      ).modulationStatus 0).searchPeakTime = 7 ∧
    ((resetModulation { Impl.init with
        modulationStatus := fun _ =>
          { ModulationStatus.init with
            searchPeakTime := 7, filterIntegrate := 7, detectIntegrate := 7
            symbolStartTime := 7, symbolEndTime := 7, symbolSyncTime := 7 } }
      ).modulationStatus 0).filterIntegrate = 7 ∧
    ((resetModulation { Impl.init with
        modulationStatus := fun _ =>
          { ModulationStatus.init with
            searchPeakTime := 7, filterIntegrate := 7, detectIntegrate := 7
            symbolStartTime := 7, symbolEndTime := 7, symbolSyncTime := 7 } }
      ).modulationStatus 0).symbolStartTime = 7 := by
  refine ⟨rfl, rfl, rfl⟩

/-- C9 (amended): after every call to `resetModulation`, for every active
bitrate the search stage, the search start/end times, the pulse width, the
deep value, the symbol average, the detector and correlation peaks are
cleared (and `symbolPhase` is set to NaN) — while `searchPeakTime`, the
filter/detect integrators and the symbol start/end/sync times keep their
previous values; `streamStatus` and `symbolStatus` are fully zeroed;
`frameStatus.frameType`, `frameStart` and `frameEnd` are zero; and the
decoder's bitrate and modulation selections are null. -/
theorem claim_C9 (s : Impl) (i : Fin 4) (hi : i.val ≤ 2) :
    ((resetModulation s).modulationStatus i).searchStage = 0 ∧
    ((resetModulation s).modulationStatus i).searchStartTime = 0 ∧
    ((resetModulation s).modulationStatus i).searchEndTime = 0 ∧
    ((resetModulation s).modulationStatus i).searchPulseWidth = 0 ∧
    ((resetModulation s).modulationStatus i).searchDeepValue = 0 ∧
    ((resetModulation s).modulationStatus i).symbolAverage = 0 ∧
    ((resetModulation s).modulationStatus i).symbolPhase = none ∧
    ((resetModulation s).modulationStatus i).detectorPeek = 0 ∧
    ((resetModulation s).modulationStatus i).correlationPeek = 0 ∧
    ((resetModulation s).modulationStatus i).searchPeakTime
      = (s.modulationStatus i).searchPeakTime ∧
    ((resetModulation s).modulationStatus i).filterIntegrate
      = (s.modulationStatus i).filterIntegrate ∧
    ((resetModulation s).modulationStatus i).detectIntegrate
      = (s.modulationStatus i).detectIntegrate ∧
    ((resetModulation s).modulationStatus i).symbolStartTime
      = (s.modulationStatus i).symbolStartTime ∧
    ((resetModulation s).modulationStatus i).symbolEndTime
      = (s.modulationStatus i).symbolEndTime ∧
    ((resetModulation s).modulationStatus i).symbolSyncTime
      = (s.modulationStatus i).symbolSyncTime ∧
    (resetModulation s).streamStatus = StreamStatus.init ∧
    (resetModulation s).symbolStatus = SymbolStatus.init ∧
    (resetModulation s).frameStatus.frameType = 0 ∧
    (resetModulation s).frameStatus.frameStart = 0 ∧
    (resetModulation s).frameStatus.frameEnd = 0 ∧
    (resetModulation s).bitrateSel = none ∧
    (resetModulation s).modulationSel = none := by
  simp [resetModulation, resetRate, if_pos hi]

/-- C9 witness: the amended theorem at a concrete state and rate. -/
theorem claim_C9_witness :
    ((resetModulation Impl.init).modulationStatus 0).searchStage = 0 ∧
    ((resetModulation Impl.init).modulationStatus 0).searchStartTime = 0 ∧
    ((resetModulation Impl.init).modulationStatus 0).searchEndTime = 0 ∧
    ((resetModulation Impl.init).modulationStatus 0).searchPulseWidth = 0 ∧
    ((resetModulation Impl.init).modulationStatus 0).searchDeepValue = 0 ∧
    ((resetModulation Impl.init).modulationStatus 0).symbolAverage = 0 ∧
    ((resetModulation Impl.init).modulationStatus 0).symbolPhase = none ∧
    ((resetModulation Impl.init).modulationStatus 0).detectorPeek = 0 ∧
    ((resetModulation Impl.init).modulationStatus 0).correlationPeek = 0 ∧
    ((resetModulation Impl.init).modulationStatus 0).searchPeakTime
      = ((Impl.init).modulationStatus 0).searchPeakTime ∧
    ((resetModulation Impl.init).modulationStatus 0).filterIntegrate
      = ((Impl.init).modulationStatus 0).filterIntegrate ∧
    ((resetModulation Impl.init).modulationStatus 0).detectIntegrate
      = ((Impl.init).modulationStatus 0).detectIntegrate ∧
    ((resetModulation Impl.init).modulationStatus 0).symbolStartTime
      = ((Impl.init).modulationStatus 0).symbolStartTime ∧
    ((resetModulation Impl.init).modulationStatus 0).symbolEndTime
      = ((Impl.init).modulationStatus 0).symbolEndTime ∧
    ((resetModulation Impl.init).modulationStatus 0).symbolSyncTime
      = ((Impl.init).modulationStatus 0).symbolSyncTime ∧
    (resetModulation Impl.init).streamStatus = StreamStatus.init ∧
    (resetModulation Impl.init).symbolStatus = SymbolStatus.init ∧
    (resetModulation Impl.init).frameStatus.frameType = 0 ∧
    (resetModulation Impl.init).frameStatus.frameStart = 0 ∧
    (resetModulation Impl.init).frameStatus.frameEnd = 0 ∧
    (resetModulation Impl.init).bitrateSel = none ∧
    (resetModulation Impl.init).modulationSel = none :=
  claim_C9 Impl.init 0 (by decide)

/-- C5: for every emitted poll frame (which carries at most the Truncated
flag and is processed with the chained flags clear, as this core keeps
them): if its first byte is 0x05 and its length is exactly 5, processing
records `lastCommand = 0x05`, resets `maxFrameSize` to 256, sets the frame
guard time to `sampleTimeUnit·128·7`, the frame waiting time to
`sampleTimeUnit·128·18`, clears the chained flags, gives the frame phase
`SelectionFrame`, and sets the CrcError flag iff the CRC check fails; every
other poll frame gets phase `ApplicationFrame` with the CrcError flag iff
the CRC check fails. -/
theorem claim_C5 (dp : DecoderParams) (s : Impl) (fr : NfcFrame)
    (hpoll : fr.frameType = PollFrame)
    (hflags : fr.flags = 0 ∨ fr.flags = TruncatedFlag)
    (hchain : s.chainedFlags = 0) :
    ((fr.payload.getD 0 0 = 0x05 ∧ fr.payload.length = 5) →
      ((process dp fr s).1.frameStatus.lastCommand = 0x05 ∧
       (process dp fr s).1.protocolStatus.maxFrameSize = 256 ∧
       (process dp fr s).1.frameStatus.frameGuardTime
         = dp.sampleTimeUnit * 128 * 7 ∧
       (process dp fr s).1.frameStatus.frameWaitingTime
         = dp.sampleTimeUnit * 128 * 18 ∧
       (process dp fr s).1.chainedFlags = 0 ∧
       (process dp fr s).2.phase = SelectionFrame ∧
       (((process dp fr s).2.flags &&& CrcErrorFlag ≠ 0)
         ↔ checkCrc fr.payload = false))) ∧
    (¬ (fr.payload.getD 0 0 = 0x05 ∧ fr.payload.length = 5) →
      ((process dp fr s).2.phase = ApplicationFrame ∧
       (((process dp fr s).2.flags &&& CrcErrorFlag ≠ 0)
         ↔ checkCrc fr.payload = false))) := by
  rcases hp : fr.payload with _ | ⟨b0, rest⟩
  · constructor
    · rintro ⟨h5, hlen⟩
      simp at hlen
    · intro hno
      rcases hcrc : checkCrc ([] : List ℕ) with _ | _ <;>
        rcases hflags with hf | hf <;>
          cases hsel : s.bitrateSel <;>
            simp [process, processEntry, processREQB, processOther, NfcFrame.limit,
              NfcFrame.setFramePhase, NfcFrame.setFrameFlags, NfcFrame.isPollFrame,
              NfcFrame.isListenFrame, hpoll, hchain, hf, hcrc, hp, hsel,
              NFCA_REQB, PollFrame, ListenFrame, SelectionFrame, ApplicationFrame,
              CrcErrorFlag, TruncatedFlag] <;>
              decide
  · constructor
    · rintro ⟨h5, hlen⟩
      simp at h5 hlen
      subst h5
      rcases hcrc : checkCrc (5 :: rest) with _ | _ <;>
        rcases hflags with hf | hf <;>
          cases hsel : s.bitrateSel <;>
            simp [process, processEntry, processREQB, NfcFrame.limit, NfcFrame.setFramePhase,
              NfcFrame.setFrameFlags, NfcFrame.isPollFrame, NfcFrame.isListenFrame,
              hpoll, hchain, hf, hcrc, hp, hlen, hsel, NFCA_REQB, PollFrame,
              ListenFrame, SelectionFrame, CrcErrorFlag, TruncatedFlag] <;>
              decide
    · intro hno
      have hcond : ¬ (b0 = 5 ∧ rest.length = 4) := by
        rintro ⟨hb, hr⟩
        exact hno ⟨by simp [hb], by simp [hr]⟩
      rcases hcrc : checkCrc (b0 :: rest) with _ | _ <;>
        rcases hflags with hf | hf <;>
          cases hsel : s.bitrateSel <;>
            simp [process, processEntry, processREQB, processOther, NfcFrame.limit,
              NfcFrame.setFramePhase, NfcFrame.setFrameFlags, NfcFrame.isPollFrame,
              NfcFrame.isListenFrame, hpoll, hchain, hf, hcrc, hp, hcond, hsel,
              NFCA_REQB, PollFrame, ListenFrame, SelectionFrame, ApplicationFrame,
              CrcErrorFlag, TruncatedFlag] <;>
              decide

/-! ## Bit/byte framer (`NfcB::Impl::decodePollFrame`) -/

/-- The three terminal conditions of the framer loop. -/
inductive Terminator
  | frameEnd
  | streamError
  | truncateError
deriving DecidableEq

/-- The `if` / `else if` / `else if` chain at the head of the framer loop
(NfcB.cpp lines 430–439), encoded as an `Option`: at most one terminator
fires, in the source's priority order. -/
def terminatorOf (st : StreamStatus) (maxFrameSize : ℕ) (p : PatternType) :
    Option Terminator :=
  if st.bits = 9 ∧ st.data = 0 ∧ p = PatternType.PatternL then
    some .frameEnd
  else if (st.bits = 0 ∧ p = PatternType.PatternH) ∨
      (st.bits = 9 ∧ p = PatternType.PatternL) then
    some .streamError
  else if st.bytes = maxFrameSize then
    some .truncateError
  else
    none

/-- Result of one framer iteration: a frame was emitted (the source then
returns true), the accumulated-byte check failed and the modulation was
reset (the source returns false), or a bit/byte was accumulated and the
loop continues. -/
inductive StepOutcome
  | emit (frame : NfcFrame)
  | abort
  | advance
deriving DecidableEq

/-- The `frameStatus.frameEnd = symbolStatus.end` assignment at the head of
the emission path. -/
def pollFrameEndState (sym : SymbolStatus) (s : Impl) : Impl :=
  { s with frameStatus := { s.frameStatus with frameEnd := sym.stop } }

/-- The `NfcFrame` constructed and filled by the emission path of
`decodePollFrame` (the Truncated flag is set iff the terminator was a
truncate or a stream error). -/
def pollFrameResponse (dp : DecoderParams) (s : Impl) (k : Terminator) : NfcFrame :=
  { techType := 2
    frameType := PollFrame
    frameRate :=
      match s.bitrateSel with
      | some i => (s.bitrateParams i).symbolsPerSecond
      | none => 0
    sampleStart := s.frameStatus.frameStart
    sampleEnd := s.frameStatus.frameEnd
    timeStart := (s.frameStatus.frameStart : ℚ) / (dp.sampleRate : ℚ)
    timeEnd := (s.frameStatus.frameEnd : ℚ) / (dp.sampleRate : ℚ)
    flags := if k = .truncateError ∨ k = .streamError then TruncatedFlag else 0
    phase := 0
    payload := s.streamStatus.buffer }

/-- The clearing performed by the emission path before `process`: the
active modulation's symbol times and integrators, and the stream status. -/
def pollFrameEmitClear (s : Impl) : Impl :=
  let s :=
    match s.modulationSel with
    | some i =>
      { s with modulationStatus := (setMod s.modulationStatus i
        { s.modulationStatus i with
          symbolStartTime := 0, symbolEndTime := 0, symbolSyncTime := 0
          filterIntegrate := 0, detectIntegrate := 0, phaseIntegrate := 0 }) }
    | none => s
  { s with streamStatus := .init }

/-- One iteration of the `decodePollFrame` loop, for the symbol `sym` just
produced by `decodePollFrameSymbolAsk` (which wrote it into
`symbolStatus`; its `stop` field models the source's `symbolStatus.end`).
The stored byte is masked to 8 bits, matching the `unsigned char` stream
buffer. -/
def pollFrameStep (dp : DecoderParams) (sym : SymbolStatus) (s : Impl) :
    Impl × StepOutcome :=
  let s := { s with symbolStatus := sym }
  match terminatorOf s.streamStatus s.protocolStatus.maxFrameSize sym.pattern with
  | some k =>
    if 0 < s.streamStatus.bytes then
      let s := pollFrameEndState sym s
      let response := pollFrameResponse dp s k
      let s := pollFrameEmitClear s
      let r := process dp response s
      (r.1, .emit r.2)
    else
      (resetModulation s, .abort)
  | none =>
    if s.streamStatus.bits < 9 then
      let data :=
        if 0 < s.streamStatus.bits then
          s.streamStatus.data ||| (sym.value <<< (s.streamStatus.bits - 1))
        else
          s.streamStatus.data
      ({ s with streamStatus :=
        { s.streamStatus with data := data, bits := s.streamStatus.bits + 1 } },
       .advance)
    else
      ({ s with streamStatus :=
        { s.streamStatus with
          buffer := s.streamStatus.buffer ++ [s.streamStatus.data % 256]
          bytes := s.streamStatus.bytes + 1
          data := 0
          bits := 0 } },
       .advance)

/-- The `decodePollFrame` loop over the symbols produced by the symbol
decoder: it stops when the symbol stream ends or a symbol is not
`PatternL`/`PatternH` (the `pattern > NoPattern` guard), and returns after
the first emitted frame or abort, as the source does. -/
def runPollFrame (dp : DecoderParams) (syms : List SymbolStatus) (s : Impl) :
    Impl × List NfcFrame × Bool :=
  match syms with
  | [] => (s, [], false)
  | sym :: rest =>
    if 1 < sym.pattern.code then
      match pollFrameStep dp sym s with
      | (s, .emit f) => (s, [f], true)
      | (s, .abort) => (s, [], false)
      | (s, .advance) => runPollFrame dp rest s
    else
      (s, [], false)

/-- A concrete 5-byte REQB poll frame used to exercise the classifier. -/
def sampleFrameREQB : NfcFrame :=
  { techType := 2, frameType := 2, frameRate := 0, sampleStart := 0
    sampleEnd := 0, timeStart := 0, timeEnd := 0, flags := 0, phase := 0
    payload := [0x05, 0x00, 0x00, 0x00, 0x00] }

/-- Concrete decoder parameters at a 10 MHz sample rate. -/
def dp10 : DecoderParams := DecoderParams.ofRate 10000000

/-- C5 witness: the theorem applied to a concrete REQB frame. -/
theorem claim_C5_witness :
    (process dp10 sampleFrameREQB Impl.init).1.frameStatus.lastCommand = 0x05 ∧
    (process dp10 sampleFrameREQB Impl.init).1.protocolStatus.maxFrameSize = 256 ∧
    (process dp10 sampleFrameREQB Impl.init).1.frameStatus.frameGuardTime
      = dp10.sampleTimeUnit * 128 * 7 ∧
    (process dp10 sampleFrameREQB Impl.init).1.frameStatus.frameWaitingTime
      = dp10.sampleTimeUnit * 128 * 18 ∧
    (process dp10 sampleFrameREQB Impl.init).1.chainedFlags = 0 ∧
    (process dp10 sampleFrameREQB Impl.init).2.phase = SelectionFrame ∧
    (((process dp10 sampleFrameREQB Impl.init).2.flags &&& CrcErrorFlag ≠ 0)
      ↔ checkCrc sampleFrameREQB.payload = false) :=
  (claim_C5 dp10 Impl.init sampleFrameREQB rfl (Or.inl rfl) rfl).1
    ⟨by decide, by decide⟩

/-- C3: for every symbol consumed by the poll-frame framer, the
end-of-frame terminator fires exactly when `bits = 9`, `data = 0` and the
pattern is `PatternL`; the stream-error terminator fires exactly when
(`bits = 0` and `PatternH`) or (`bits = 9`, `PatternL` and `data ≠ 0` — the
`bits = 9 ∧ PatternL` guard being shadowed by the end-of-frame test); and
the truncate terminator fires exactly when neither of the above holds and
`bytes` equals `maxFrameSize`. -/
theorem claim_C3 (st : StreamStatus) (maxFrameSize : ℕ) (p : PatternType) :
    (terminatorOf st maxFrameSize p = some .frameEnd ↔
      st.bits = 9 ∧ st.data = 0 ∧ p = .PatternL) ∧
    (terminatorOf st maxFrameSize p = some .streamError ↔
      ((st.bits = 0 ∧ p = .PatternH) ∨
       (st.bits = 9 ∧ p = .PatternL ∧ st.data ≠ 0))) ∧
    (terminatorOf st maxFrameSize p = some .truncateError ↔
      (¬ (st.bits = 9 ∧ st.data = 0 ∧ p = .PatternL) ∧
       ¬ ((st.bits = 0 ∧ p = .PatternH) ∨
          (st.bits = 9 ∧ p = .PatternL ∧ st.data ≠ 0)) ∧
       st.bytes = maxFrameSize)) := by
  unfold terminatorOf
  split_ifs with h1 h2 h3 <;> simp_all <;> tauto

theorem processREQB_payload (dp : DecoderParams) (fr : NfcFrame) (s : Impl) :
    (processREQB dp fr s).2.2.payload = fr.payload := by
  unfold processREQB
  split_ifs <;> simp [NfcFrame.setFrameFlags, NfcFrame.setFramePhase]

theorem processREQB_flags (dp : DecoderParams) (fr : NfcFrame) (s : Impl) :
    ∃ c, (c = 0 ∨ c = CrcErrorFlag) ∧
      (processREQB dp fr s).2.2.flags = fr.flags ||| c := by
  unfold processREQB
  split_ifs with h1 h2
  · rcases hcrc : checkCrc fr.payload with _ | _
    · exact ⟨CrcErrorFlag, Or.inr rfl, by
        simp [NfcFrame.setFrameFlags, NfcFrame.setFramePhase, hcrc]⟩
    · exact ⟨0, Or.inl rfl, by
        simp [NfcFrame.setFrameFlags, NfcFrame.setFramePhase, hcrc]⟩
  · exact ⟨0, Or.inl rfl, by
      simp [NfcFrame.setFrameFlags, NfcFrame.setFramePhase]⟩
  · exact ⟨0, Or.inl rfl, by simp⟩

theorem processREQB_streamStatus (dp : DecoderParams) (fr : NfcFrame) (s : Impl) :
    (processREQB dp fr s).2.1.streamStatus = s.streamStatus := by
  unfold processREQB
  split_ifs <;> rfl

theorem processREQB_chained (dp : DecoderParams) (fr : NfcFrame) (s : Impl)
    (hchain : s.chainedFlags = 0) :
    (processREQB dp fr s).2.1.chainedFlags = 0 := by
  unfold processREQB
  split_ifs <;> simp [hchain]

theorem processREQB_false (dp : DecoderParams) (fr : NfcFrame) (s : Impl)
    (h : (processREQB dp fr s).1 = false) : (processREQB dp fr s).2 = (s, fr) := by
  unfold processREQB at h ⊢
  split_ifs at h ⊢ <;> simp_all

theorem processEntry_chained (fr : NfcFrame) (s : Impl) :
    (processEntry fr s).chainedFlags = s.chainedFlags := by
  unfold processEntry
  split_ifs <;> rfl

theorem processEntry_streamStatus (fr : NfcFrame) (s : Impl) :
    (processEntry fr s).streamStatus = s.streamStatus := by
  unfold processEntry
  split_ifs <;> rfl

theorem process_payload (dp : DecoderParams) (fr : NfcFrame) (s : Impl) :
    (process dp fr s).2.payload = fr.payload := by
  simp only [process]
  rcases hq : processREQB dp fr (processEntry fr s) with ⟨handled, s1, fr1⟩
  have hpl : fr1.payload = fr.payload := by
    have h := processREQB_payload dp fr (processEntry fr s)
    rwa [hq] at h
  cases handled <;>
    simp [processOther, NfcFrame.setFrameFlags, NfcFrame.setFramePhase, hpl]

theorem process_flags (dp : DecoderParams) (fr : NfcFrame) (s : Impl)
    (hchain : s.chainedFlags = 0) :
    ∃ c, (c = 0 ∨ c = CrcErrorFlag) ∧ (process dp fr s).2.flags = fr.flags ||| c := by
  simp only [process]
  have hchain0 : (processEntry fr s).chainedFlags = 0 :=
    (processEntry_chained fr s).trans hchain
  rcases hq : processREQB dp fr (processEntry fr s) with ⟨handled, s1, fr1⟩
  cases handled with
  | true =>
    obtain ⟨c, hc, hfl⟩ := processREQB_flags dp fr (processEntry fr s)
    rw [hq] at hfl
    simp at hfl
    have hch1 : s1.chainedFlags = 0 := by
      have h := processREQB_chained dp fr (processEntry fr s) hchain0
      rwa [hq] at h
    exact ⟨c, hc, by simp [NfcFrame.setFrameFlags, hch1, hfl]⟩
  | false =>
    have h := processREQB_false dp fr (processEntry fr s) (by rw [hq])
    rw [hq] at h
    have hs1 : s1 = processEntry fr s := congrArg Prod.fst h
    have hfr1 : fr1 = fr := congrArg Prod.snd h
    subst hs1 hfr1
    rcases hcrc : checkCrc fr1.payload with _ | _
    · exact ⟨CrcErrorFlag, Or.inr rfl, by
        simp [processOther, NfcFrame.setFrameFlags, NfcFrame.setFramePhase,
          hchain0, hcrc]⟩
    · exact ⟨0, Or.inl rfl, by
        simp [processOther, NfcFrame.setFrameFlags, NfcFrame.setFramePhase,
          hchain0, hcrc]⟩

theorem process_streamStatus (dp : DecoderParams) (fr : NfcFrame) (s : Impl) :
    (process dp fr s).1.streamStatus = s.streamStatus := by
  simp only [process]
  rcases hq : processREQB dp fr (processEntry fr s) with ⟨handled, s1, fr1⟩
  have hss1 : s1.streamStatus = s.streamStatus := by
    have h := processREQB_streamStatus dp fr (processEntry fr s)
    rw [hq] at h
    exact h.trans (processEntry_streamStatus fr s)
  cases handled <;>
    split_ifs <;>
      rcases hbs : s1.bitrateSel with _ | i <;>
        simp [processOther, NfcFrame.setFrameFlags, NfcFrame.setFramePhase,
          hss1, hbs]

theorem terminatorOf_none_bytes {st : StreamStatus} {m : ℕ} {p : PatternType}
    (h : terminatorOf st m p = none) : st.bytes ≠ m := by
  unfold terminatorOf at h
  split_ifs at h <;> simp_all

theorem pollFrameEmitClear_chained (s : Impl) :
    (pollFrameEmitClear s).chainedFlags = s.chainedFlags := by
  unfold pollFrameEmitClear
  rcases s.modulationSel <;> rfl

theorem pollFrameEmitClear_streamStatus (s : Impl) :
    (pollFrameEmitClear s).streamStatus = StreamStatus.init := by
  unfold pollFrameEmitClear
  rcases s.modulationSel <;> rfl

/-- Invariant of the bit/byte framer: the bit counter stays within the
0..9 character positions and the byte counter never exceeds the maximum
frame size. -/
def framerInv (s : Impl) : Prop :=
  s.streamStatus.bits ≤ 9 ∧ s.streamStatus.bytes ≤ s.protocolStatus.maxFrameSize

theorem pollFrameStep_inv (dp : DecoderParams) (sym : SymbolStatus) (s : Impl)
    (h : framerInv s) : framerInv (pollFrameStep dp sym s).1 := by
  obtain ⟨hbits, hbytes⟩ := h
  rcases hterm : terminatorOf s.streamStatus s.protocolStatus.maxFrameSize sym.pattern
    with _ | k
  · have hmax := terminatorOf_none_bytes hterm
    by_cases hlt : s.streamStatus.bits < 9 <;>
      simp only [pollFrameStep, hterm, hlt, if_pos, if_neg, framerInv] <;>
        simp <;> omega
  · by_cases hb : 0 < s.streamStatus.bytes
    · simp only [pollFrameStep, hterm, if_pos hb]
      constructor <;>
        simp [process_streamStatus, pollFrameEmitClear_streamStatus,
          StreamStatus.init]
    · simp only [pollFrameStep, hterm, if_neg hb]
      simp [resetModulation, framerInv, StreamStatus.init]

/-- C8: at every step of the poll-frame framer, `streamStatus.bits` stays
in [0, 9] and `streamStatus.bytes` never exceeds
`protocolStatus.maxFrameSize` (the truncate terminator fires before a byte
past `maxFrameSize` could be stored): the invariant is preserved by every
single framer step and hence holds along every run. -/
theorem claim_C8 :
    (∀ (dp : DecoderParams) (sym : SymbolStatus) (s : Impl),
      framerInv s → framerInv (pollFrameStep dp sym s).1) ∧
    (∀ (dp : DecoderParams) (syms : List SymbolStatus) (s : Impl),
      framerInv s → framerInv (runPollFrame dp syms s).1) := by
  refine ⟨pollFrameStep_inv, ?_⟩
  intro dp syms
  induction syms with
  | nil => exact fun s h => h
  | cons sym rest ih =>
    intro s h
    unfold runPollFrame
    by_cases hp : 1 < sym.pattern.code
    · rw [if_pos hp]
      have hstep := pollFrameStep_inv dp sym s h
      rcases hres : pollFrameStep dp sym s with ⟨s1, out⟩
      rw [hres] at hstep
      cases out with
      | emit f => exact hstep
      | abort => exact hstep
      | advance => exact ih s1 hstep
    · rw [if_neg hp]
      exact h

/-- A concrete `PatternL` symbol used as witness input. -/
def symL : SymbolStatus :=
  { value := 0, start := 0, stop := 128, length := 128, pattern := .PatternL }

/-- C8 witness: the step preservation at a concrete state and symbol. -/
theorem claim_C8_witness : framerInv (pollFrameStep dp10 symL Impl.init).1 :=
  claim_C8.1 dp10 symL Impl.init (by constructor <;> decide)

/-- C4: whenever a terminator fires in `decodePollFrame` (with the chained
flags clear, as this core keeps them): if at least one payload byte has
been accumulated, exactly one `NfcFrame` carrying the accumulated bytes is
appended to the output list, with the Truncated flag set iff the
terminator was a stream error or a truncate error; if no byte has been
accumulated, no frame is appended and the modulation state is reset. -/
theorem claim_C4 (dp : DecoderParams) (sym : SymbolStatus)
    (rest : List SymbolStatus) (s : Impl) (k : Terminator)
    (hterm : terminatorOf s.streamStatus s.protocolStatus.maxFrameSize sym.pattern
      = some k)
    (hpat : 1 < sym.pattern.code)
    (hchain : s.chainedFlags = 0) :
    (0 < s.streamStatus.bytes →
      ∃ f, (runPollFrame dp (sym :: rest) s).2.1 = [f] ∧
        f.payload = s.streamStatus.buffer ∧
        ((f.flags &&& TruncatedFlag ≠ 0) ↔
          (k = .streamError ∨ k = .truncateError))) ∧
    (s.streamStatus.bytes = 0 →
      (runPollFrame dp (sym :: rest) s).2.1 = [] ∧
      (runPollFrame dp (sym :: rest) s).1
        = resetModulation { s with symbolStatus := sym }) := by
  constructor
  · intro hb
    simp only [runPollFrame, pollFrameStep, hterm, if_pos hpat, if_pos hb]
    refine ⟨_, rfl, ?_, ?_⟩
    · rw [process_payload]
      simp [pollFrameResponse, pollFrameEndState]
    · obtain ⟨c, hc, hfl⟩ := process_flags dp
        (pollFrameResponse dp (pollFrameEndState sym { s with symbolStatus := sym }) k)
        (pollFrameEmitClear (pollFrameEndState sym { s with symbolStatus := sym }))
        (by simp [pollFrameEmitClear_chained, pollFrameEndState, hchain])
      rw [hfl]
      rcases hc with hc | hc <;> subst hc <;> cases k <;>
        simp [pollFrameResponse, TruncatedFlag, CrcErrorFlag] <;> decide
  · intro hb0
    simp only [runPollFrame, pollFrameStep, hterm, if_pos hpat,
      if_neg (by omega : ¬ 0 < s.streamStatus.bytes)]
    exact ⟨trivial, trivial⟩

/-- Concrete framer state with one accumulated byte, at the stop-bit
position. -/
def c4state : Impl :=
  { Impl.init with streamStatus := { buffer := [5], bytes := 1, data := 0, bits := 9 } }

/-- C4 witness: a clean end-of-frame at a state with one accumulated byte
emits exactly one frame without the Truncated flag. -/
theorem claim_C4_witness :
    ∃ f, (runPollFrame dp10 [symL] c4state).2.1 = [f] ∧
      f.payload = c4state.streamStatus.buffer ∧
      ((f.flags &&& TruncatedFlag ≠ 0) ↔
        (Terminator.frameEnd = Terminator.streamError ∨
         Terminator.frameEnd = Terminator.truncateError)) :=
  (claim_C4 dp10 symL [] c4state .frameEnd (by decide) (by decide) rfl).1 (by decide)

/-! ## SOF detector (`NfcB::Impl::detectModulation`) -/

/-- The per-sample values `detectModulation` reads from the decoder: the
signal clock and the three ring-buffer samples (current, 1/4-symbol
delayed, 1/8-symbol delayed), plus the power average and its threshold. -/
structure SampleInput where
  signalClock : ℤ
  signalData : ℚ
  filterData : ℚ
  detectData : ℚ
  powerAverage : ℚ
  powerLevelThreshold : ℚ
deriving DecidableEq

/-- The two moving-average updates:
`filterIntegrate += signal − filterData; detectIntegrate += signal − detectData`. -/
def updateIntegrators (inp : SampleInput) (m : ModulationStatus) : ModulationStatus :=
  { m with
    filterIntegrate := m.filterIntegrate + inp.signalData - inp.filterData
    detectIntegrate := m.detectIntegrate + inp.signalData - inp.detectData }

/-- The signed edge detector
`filterIntegrate / period4 − detectIntegrate / period8`. -/
def edgeDetectorOf (b : BitrateParams) (m : ModulationStatus) : ℚ :=
  m.filterIntegrate / (b.period4SymbolSamples : ℚ)
    - m.detectIntegrate / (b.period8SymbolSamples : ℚ)

/-- The modulation depth `(powerAverage − signal) / powerAverage`. -/
def modulationDeepOf (inp : SampleInput) : ℚ :=
  (inp.powerAverage - inp.signalData) / inp.powerAverage

/-- The edge value this sample produces (after the integrator updates). -/
def stepEdge (inp : SampleInput) (s : Impl) : ℚ :=
  edgeDetectorOf (s.bitrateParams 0) (updateIntegrators inp (s.modulationStatus 0))

theorem updateIntegrators_searchStage (inp : SampleInput) (m : ModulationStatus) :
    (updateIntegrators inp m).searchStage = m.searchStage := rfl

theorem updateIntegrators_searchStartTime (inp : SampleInput) (m : ModulationStatus) :
    (updateIntegrators inp m).searchStartTime = m.searchStartTime := rfl

theorem updateIntegrators_searchEndTime (inp : SampleInput) (m : ModulationStatus) :
    (updateIntegrators inp m).searchEndTime = m.searchEndTime := rfl

theorem updateIntegrators_searchPeakTime (inp : SampleInput) (m : ModulationStatus) :
    (updateIntegrators inp m).searchPeakTime = m.searchPeakTime := rfl

theorem updateIntegrators_detectorPeek (inp : SampleInput) (m : ModulationStatus) :
    (updateIntegrators inp m).detectorPeek = m.detectorPeek := rfl

theorem updateIntegrators_symbolStartTime (inp : SampleInput) (m : ModulationStatus) :
    (updateIntegrators inp m).symbolStartTime = m.symbolStartTime := rfl

/-- The `SOF_BEGIN` stage body: peak-track positive edges gated by depth;
when the closing deadline is reached, either arm the IDLE search window
10–11 ETU after the recorded peak, or clear the window. -/
def sofBegin (b : BitrateParams) (clock : ℤ) (edge deep minTh : ℚ)
    (m : ModulationStatus) : ModulationStatus :=
  let m :=
    if m.detectorPeek < edge ∧ edge > 1/1000 ∧ deep > minTh then
      { m with detectorPeek := edge, searchPeakTime := clock
               searchEndTime := clock + b.period4SymbolSamples }
    else m
  if clock = m.searchEndTime then
    if m.searchPeakTime ≠ 0 then
      { m with
        symbolStartTime := m.searchPeakTime - b.period8SymbolSamples
        searchStage := 1
        searchStartTime := m.searchPeakTime
          + 10 * b.period1SymbolSamples - b.period2SymbolSamples
        searchEndTime := m.searchPeakTime
          + 11 * b.period1SymbolSamples + b.period2SymbolSamples
        searchPeakTime := 0
        detectorPeek := 0 }
    else
      { m with searchStartTime := 0, searchEndTime := 0 }
  else m

/-- The `SOF_IDLE` stage body: inside the 10–11 ETU window, peak-track
negative edges; at the deadline either arm the END window 2–3 ETU after
the peak or fall back to BEGIN; outside the window any significant edge
resets to BEGIN (and the source returns immediately — every IDLE outcome
reports no detection). -/
def sofIdle (b : BitrateParams) (clock : ℤ) (edge : ℚ)
    (m : ModulationStatus) : ModulationStatus :=
  if clock > m.searchStartTime ∧ clock ≤ m.searchEndTime then
    let m :=
      if edge < -(1/1000) ∧ m.detectorPeek > edge then
        { m with detectorPeek := edge, searchPeakTime := clock
                 searchEndTime := clock + b.period4SymbolSamples }
      else m
    if clock = m.searchEndTime then
      if m.searchPeakTime ≠ 0 then
        { m with
          searchStage := 2
          searchStartTime := m.searchPeakTime
            + 2 * b.period1SymbolSamples - b.period2SymbolSamples
          searchEndTime := m.searchPeakTime
            + 3 * b.period1SymbolSamples + b.period2SymbolSamples
          searchPeakTime := 0
          detectorPeek := 0 }
      else
        { m with searchStage := 0, searchStartTime := 0, searchEndTime := 0
                 searchPeakTime := 0, detectorPeek := 0
                 symbolStartTime := 0, symbolEndTime := 0 }
    else m
  else if |edge| > 1/1000 then
    { m with searchStage := 0, searchStartTime := 0, searchEndTime := 0
             searchPeakTime := 0, detectorPeek := 0
             symbolStartTime := 0, symbolEndTime := 0 }
  else m

/-- The `SOF_END` stage body: inside the 2–3 ETU window, peak-track
positive edges gated by depth (deadline `clock + period8`); at the
deadline a recorded peak confirms the SOF (flag true, symbol end set),
otherwise fall back to BEGIN. -/
def sofEnd (b : BitrateParams) (clock : ℤ) (edge deep minTh : ℚ)
    (m : ModulationStatus) : Bool × ModulationStatus :=
  if clock > m.searchStartTime ∧ clock ≤ m.searchEndTime then
    let m :=
      if edge > 1/1000 ∧ m.detectorPeek < edge ∧ deep > minTh then
        { m with detectorPeek := edge, searchPeakTime := clock
                 searchEndTime := clock + b.period8SymbolSamples }
      else m
    if clock = m.searchEndTime then
      if m.searchPeakTime ≠ 0 then
        (true,
         { m with
           symbolEndTime := m.searchPeakTime - b.period8SymbolSamples
           symbolSyncTime := 0
           searchStage := 0, searchStartTime := 0, searchEndTime := 0
           searchDeepValue := 0, detectorPeek := 0 })
      else
        (false,
         { m with searchStage := 0, searchStartTime := 0, searchEndTime := 0
                  searchPeakTime := 0, detectorPeek := 0
                  symbolStartTime := 0, symbolEndTime := 0 })
    else (false, m)
  else (false, m)

/-- `NfcB::Impl::detectModulation`, per sample. The source's rate loop runs
for the single rate r106k; the power gate wraps the whole body; the
modulation-depth overshoot aborts the search; otherwise the three-stage
SOF state machine (`SOF_BEGIN = 0`, `SOF_IDLE = 1`, `SOF_END = 2`) runs on
the edge detector value, a `switch` without default (any other stage value
falls through). On confirmation the frame info is published and the
decoder selects the r106k bitrate and modulation. Returns the detection
flag and the updated state. -/
def detectModulation (inp : SampleInput) (s : Impl) : Bool × Impl :=
  if inp.powerAverage > inp.powerLevelThreshold then
    if modulationDeepOf inp > s.maximumModulationThreshold then
      (false, { s with modulationStatus := (setMod s.modulationStatus 0
        { updateIntegrators inp (s.modulationStatus 0) with
          searchStage := 0, searchStartTime := 0, searchEndTime := 0
          detectorPeek := 0 }) })
    else if (s.modulationStatus 0).searchStage = 0 then
      (false, { s with modulationStatus := (setMod s.modulationStatus 0
        (sofBegin (s.bitrateParams 0) inp.signalClock (stepEdge inp s)
          (modulationDeepOf inp) s.minimumModulationThreshold
          (updateIntegrators inp (s.modulationStatus 0)))) })
    else if (s.modulationStatus 0).searchStage = 1 then
      (false, { s with modulationStatus := (setMod s.modulationStatus 0
        (sofIdle (s.bitrateParams 0) inp.signalClock (stepEdge inp s)
          (updateIntegrators inp (s.modulationStatus 0)))) })
    else if (s.modulationStatus 0).searchStage = 2 then
      if (sofEnd (s.bitrateParams 0) inp.signalClock (stepEdge inp s)
          (modulationDeepOf inp) s.minimumModulationThreshold
          (updateIntegrators inp (s.modulationStatus 0))).1 then
        (true,
         { s with
           modulationStatus := (setMod s.modulationStatus 0
             (sofEnd (s.bitrateParams 0) inp.signalClock (stepEdge inp s)
               (modulationDeepOf inp) s.minimumModulationThreshold
               (updateIntegrators inp (s.modulationStatus 0))).2)
           frameStatus :=
             { s.frameStatus with
               frameType := PollFrame
               symbolRate := (s.bitrateParams 0).symbolsPerSecond
               frameStart := (s.modulationStatus 0).symbolStartTime
                 - (s.bitrateParams 0).symbolDelayDetect
               frameEnd := 0 }
           bitrateSel := some 0
           modulationSel := some 0 })
      else
        (false, { s with modulationStatus := (setMod s.modulationStatus 0
          (sofEnd (s.bitrateParams 0) inp.signalClock (stepEdge inp s)
            (modulationDeepOf inp) s.minimumModulationThreshold
            (updateIntegrators inp (s.modulationStatus 0))).2) })
    else
      (false, { s with modulationStatus := (setMod s.modulationStatus 0
        (updateIntegrators inp (s.modulationStatus 0))) })
  else
    (false, s)

/-- C7: `detectModulation` never confirms a detection on a sample whose
modulation depth exceeds `maximumModulationThreshold`: it returns false on
every such sample, and whenever the detector is running (power average
above the threshold — the gate under which the whole state machine
operates) the current search is aborted: the stage returns to `SOF_BEGIN`
with the search window and the detector peak cleared, so no SOF
confirmation and hence no frame can arise from such a sample. -/
theorem claim_C7 (inp : SampleInput) (s : Impl)
    (hdeep : modulationDeepOf inp > s.maximumModulationThreshold) :
    (detectModulation inp s).1 = false ∧
    (inp.powerAverage > inp.powerLevelThreshold →
      ((detectModulation inp s).2.modulationStatus 0).searchStage = 0 ∧
      ((detectModulation inp s).2.modulationStatus 0).searchStartTime = 0 ∧
      ((detectModulation inp s).2.modulationStatus 0).searchEndTime = 0 ∧
      ((detectModulation inp s).2.modulationStatus 0).detectorPeek = 0) := by
  by_cases hpow : inp.powerAverage > inp.powerLevelThreshold <;>
    simp [detectModulation, hpow, hdeep, setMod]

/-- C7 witness: a concrete overshooting sample aborts the search. -/
theorem claim_C7_witness :
    (detectModulation
      { signalClock := 50, signalData := 0, filterData := 0, detectData := 0
        powerAverage := 1, powerLevelThreshold := 1/2 } Impl.init).1 = false ∧
    ((1 : ℚ) > (1 : ℚ)/2 →
      ((detectModulation
        { signalClock := 50, signalData := 0, filterData := 0, detectData := 0
          powerAverage := 1, powerLevelThreshold := 1/2 } Impl.init
        ).2.modulationStatus 0).searchStage = 0 ∧
      ((detectModulation
        { signalClock := 50, signalData := 0, filterData := 0, detectData := 0
          powerAverage := 1, powerLevelThreshold := 1/2 } Impl.init
        ).2.modulationStatus 0).searchStartTime = 0 ∧
      ((detectModulation
        { signalClock := 50, signalData := 0, filterData := 0, detectData := 0
          powerAverage := 1, powerLevelThreshold := 1/2 } Impl.init
        ).2.modulationStatus 0).searchEndTime = 0 ∧
      ((detectModulation
        { signalClock := 50, signalData := 0, filterData := 0, detectData := 0
          powerAverage := 1, powerLevelThreshold := 1/2 } Impl.init
        ).2.modulationStatus 0).detectorPeek = 0) :=
  claim_C7
    { signalClock := 50, signalData := 0, filterData := 0, detectData := 0
      powerAverage := 1, powerLevelThreshold := 1/2 } Impl.init (by norm_num [modulationDeepOf, Impl.init])

/-- C10: whenever `detectModulation` returns true, the frame type is
`PollFrame` and the decoder's bitrate and modulation selections point to
the r106k entries (index 0, the only rate the detector loop visits);
whenever it returns false, the selections retain their previous values. -/
theorem claim_C10 (inp : SampleInput) (s : Impl) :
    ((detectModulation inp s).1 = true →
      (detectModulation inp s).2.frameStatus.frameType = PollFrame ∧
      (detectModulation inp s).2.bitrateSel = some 0 ∧
      (detectModulation inp s).2.modulationSel = some 0) ∧
    ((detectModulation inp s).1 = false →
      (detectModulation inp s).2.bitrateSel = s.bitrateSel ∧
      (detectModulation inp s).2.modulationSel = s.modulationSel) := by
  rcases hr : detectModulation inp s with ⟨flag, s1⟩
  unfold detectModulation at hr
  split_ifs at hr <;>
    (injection hr with h1 h2; subst h1; subst h2) <;>
    first
      | exact ⟨fun h => absurd h Bool.false_ne_true, fun h => ⟨rfl, rfl⟩⟩
      | refine ⟨fun h => ⟨rfl, rfl, rfl⟩, fun h => Bool.noConfusion h⟩

theorem sofBegin_close (b : BitrateParams) (clock : ℤ) (edge deep minTh : ℚ)
    (m : ModulationStatus)
    (hnoup : ¬ (m.detectorPeek < edge ∧ edge > 1/1000 ∧ deep > minTh))
    (hclose : clock = m.searchEndTime) :
    sofBegin b clock edge deep minTh m =
      if m.searchPeakTime ≠ 0 then
        { m with
          symbolStartTime := m.searchPeakTime - b.period8SymbolSamples
          searchStage := 1
          searchStartTime := m.searchPeakTime
            + 10 * b.period1SymbolSamples - b.period2SymbolSamples
          searchEndTime := m.searchPeakTime
            + 11 * b.period1SymbolSamples + b.period2SymbolSamples
          searchPeakTime := 0
          detectorPeek := 0 }
      else
        { m with searchStartTime := 0, searchEndTime := 0 } := by
  unfold sofBegin
  rw [if_neg hnoup, if_pos hclose]

theorem sofEnd_close (b : BitrateParams) (clock : ℤ) (edge deep minTh : ℚ)
    (m : ModulationStatus)
    (hnoup : ¬ (edge > 1/1000 ∧ m.detectorPeek < edge ∧ deep > minTh))
    (hwin : clock > m.searchStartTime ∧ clock ≤ m.searchEndTime)
    (hclose : clock = m.searchEndTime) :
    sofEnd b clock edge deep minTh m =
      if m.searchPeakTime ≠ 0 then
        (true,
         { m with
           symbolEndTime := m.searchPeakTime - b.period8SymbolSamples
           symbolSyncTime := 0
           searchStage := 0, searchStartTime := 0, searchEndTime := 0
           searchDeepValue := 0, detectorPeek := 0 })
      else
        (false,
         { m with searchStage := 0, searchStartTime := 0, searchEndTime := 0
                  searchPeakTime := 0, detectorPeek := 0
                  symbolStartTime := 0, symbolEndTime := 0 }) := by
  unfold sofEnd
  rw [if_pos hwin, if_neg hnoup, if_pos hclose]

/-- C6: in the SOF state machine, when the BEGIN stage's window closes
(the deadline sample, with no new peak recorded on it) with a recorded
falling-edge peak at time p, `symbolStartTime` is set to `p − period8` and
the machine enters IDLE with search window
[p + 10·period1 − period2, p + 11·period1 + period2]; when the END stage's
window closes with a recorded peak at q, the SOF is confirmed —
`symbolEndTime = q − period8`, `symbolSyncTime = 0`,
`frameType = PollFrame`, `symbolRate` = the bitrate's symbols per second,
`frameStart = symbolStartTime − symbolDelayDetect`, `frameEnd = 0`, the
r106k bitrate and modulation become the active selections, and the
function returns true; when either window closes with no recorded peak,
the machine returns to BEGIN and no detection is reported. -/
theorem claim_C6 (inp : SampleInput) (s : Impl)
    (hpow : inp.powerAverage > inp.powerLevelThreshold)
    (hdeep : ¬ modulationDeepOf inp > s.maximumModulationThreshold)
    (hclose : inp.signalClock = (s.modulationStatus 0).searchEndTime)
    (hnoupB : ¬ ((s.modulationStatus 0).detectorPeek < stepEdge inp s ∧
        stepEdge inp s > 1/1000 ∧
        modulationDeepOf inp > s.minimumModulationThreshold))
    (hnoupE : ¬ (stepEdge inp s > 1/1000 ∧
        (s.modulationStatus 0).detectorPeek < stepEdge inp s ∧
        modulationDeepOf inp > s.minimumModulationThreshold)) :
    ((s.modulationStatus 0).searchStage = 0 →
      (s.modulationStatus 0).searchPeakTime ≠ 0 →
      ((detectModulation inp s).1 = false ∧
       ((detectModulation inp s).2.modulationStatus 0).symbolStartTime
         = (s.modulationStatus 0).searchPeakTime
           - (s.bitrateParams 0).period8SymbolSamples ∧
       ((detectModulation inp s).2.modulationStatus 0).searchStage = 1 ∧
       ((detectModulation inp s).2.modulationStatus 0).searchStartTime
         = (s.modulationStatus 0).searchPeakTime
           + 10 * (s.bitrateParams 0).period1SymbolSamples
           - (s.bitrateParams 0).period2SymbolSamples ∧
       ((detectModulation inp s).2.modulationStatus 0).searchEndTime
         = (s.modulationStatus 0).searchPeakTime
           + 11 * (s.bitrateParams 0).period1SymbolSamples
           + (s.bitrateParams 0).period2SymbolSamples)) ∧
    ((s.modulationStatus 0).searchStage = 0 →
      (s.modulationStatus 0).searchPeakTime = 0 →
      ((detectModulation inp s).1 = false ∧
       ((detectModulation inp s).2.modulationStatus 0).searchStage = 0 ∧
       ((detectModulation inp s).2.modulationStatus 0).searchStartTime = 0 ∧
       ((detectModulation inp s).2.modulationStatus 0).searchEndTime = 0)) ∧
    ((s.modulationStatus 0).searchStage = 2 →
      inp.signalClock > (s.modulationStatus 0).searchStartTime →
      (s.modulationStatus 0).searchPeakTime ≠ 0 →
      ((detectModulation inp s).1 = true ∧
       ((detectModulation inp s).2.modulationStatus 0).symbolEndTime
         = (s.modulationStatus 0).searchPeakTime
           - (s.bitrateParams 0).period8SymbolSamples ∧
       ((detectModulation inp s).2.modulationStatus 0).symbolSyncTime = 0 ∧
       (detectModulation inp s).2.frameStatus.frameType = PollFrame ∧
       (detectModulation inp s).2.frameStatus.symbolRate
         = (s.bitrateParams 0).symbolsPerSecond ∧
       (detectModulation inp s).2.frameStatus.frameStart
         = (s.modulationStatus 0).symbolStartTime
           - (s.bitrateParams 0).symbolDelayDetect ∧
       (detectModulation inp s).2.frameStatus.frameEnd = 0 ∧
       (detectModulation inp s).2.bitrateSel = some 0 ∧
       (detectModulation inp s).2.modulationSel = some 0)) ∧
    ((s.modulationStatus 0).searchStage = 2 →
      inp.signalClock > (s.modulationStatus 0).searchStartTime →
      (s.modulationStatus 0).searchPeakTime = 0 →
      ((detectModulation inp s).1 = false ∧
       ((detectModulation inp s).2.modulationStatus 0).searchStage = 0 ∧
       ((detectModulation inp s).2.modulationStatus 0).searchStartTime = 0 ∧
       ((detectModulation inp s).2.modulationStatus 0).searchEndTime = 0)) := by
  have hB := sofBegin_close (s.bitrateParams 0) inp.signalClock (stepEdge inp s)
    (modulationDeepOf inp) s.minimumModulationThreshold
    (updateIntegrators inp (s.modulationStatus 0)) hnoupB hclose
  have hE := fun (hstart : inp.signalClock > (s.modulationStatus 0).searchStartTime) =>
    sofEnd_close (s.bitrateParams 0) inp.signalClock (stepEdge inp s)
      (modulationDeepOf inp) s.minimumModulationThreshold
      (updateIntegrators inp (s.modulationStatus 0)) hnoupE
      ⟨hstart, le_of_eq hclose⟩ hclose
  refine ⟨?_, ?_, ?_, ?_⟩
  · intro hstage hpeak
    unfold detectModulation
    rw [if_pos hpow, if_neg hdeep, if_pos hstage, hB,
      if_pos (show (updateIntegrators inp (s.modulationStatus 0)).searchPeakTime ≠ 0
        from hpeak)]
    simp [setMod, updateIntegrators]
  · intro hstage hpeak
    unfold detectModulation
    rw [if_pos hpow, if_neg hdeep, if_pos hstage, hB,
      if_neg (show ¬ (updateIntegrators inp (s.modulationStatus 0)).searchPeakTime ≠ 0
        by simpa using hpeak)]
    simp [setMod, updateIntegrators, hstage]
  · intro hstage hstart hpeak
    unfold detectModulation
    rw [if_pos hpow, if_neg hdeep,
      if_neg (show ¬ (s.modulationStatus 0).searchStage = 0 by simp [hstage]),
      if_neg (show ¬ (s.modulationStatus 0).searchStage = 1 by simp [hstage]),
      if_pos hstage, hE hstart,
      if_pos (show (updateIntegrators inp (s.modulationStatus 0)).searchPeakTime ≠ 0
        from hpeak)]
    simp [setMod, updateIntegrators]
  · intro hstage hstart hpeak
    unfold detectModulation
    rw [if_pos hpow, if_neg hdeep,
      if_neg (show ¬ (s.modulationStatus 0).searchStage = 0 by simp [hstage]),
      if_neg (show ¬ (s.modulationStatus 0).searchStage = 1 by simp [hstage]),
      if_pos hstage, hE hstart,
      if_neg (show ¬ (updateIntegrators inp (s.modulationStatus 0)).searchPeakTime ≠ 0
        by simpa using hpeak)]
    simp [setMod, updateIntegrators]

/-- Concrete detector state: BEGIN stage, window closing at clock 1000,
with a recorded peak at 300. -/
def c6state : Impl :=
  { Impl.init with modulationStatus := fun _ =>
    { ModulationStatus.init with searchEndTime := 1000, searchPeakTime := 300 } }

/-- A flat sample (no edge, no modulation) at clock 1000 with power above
threshold. -/
def c6input : SampleInput :=
  { signalClock := 1000, signalData := 1, filterData := 1, detectData := 1
    powerAverage := 1, powerLevelThreshold := 1/2 }

/-- C6 witness: the BEGIN-stage window close with a recorded peak, at a
concrete state. -/
theorem claim_C6_witness :
    (detectModulation c6input c6state).1 = false ∧
    ((detectModulation c6input c6state).2.modulationStatus 0).symbolStartTime
      = (c6state.modulationStatus 0).searchPeakTime
        - (c6state.bitrateParams 0).period8SymbolSamples ∧
    ((detectModulation c6input c6state).2.modulationStatus 0).searchStage = 1 ∧
    ((detectModulation c6input c6state).2.modulationStatus 0).searchStartTime
      = (c6state.modulationStatus 0).searchPeakTime
        + 10 * (c6state.bitrateParams 0).period1SymbolSamples
        - (c6state.bitrateParams 0).period2SymbolSamples ∧
    ((detectModulation c6input c6state).2.modulationStatus 0).searchEndTime
      = (c6state.modulationStatus 0).searchPeakTime
        + 11 * (c6state.bitrateParams 0).period1SymbolSamples
        + (c6state.bitrateParams 0).period2SymbolSamples :=
  (claim_C6 c6input c6state
    (by norm_num [c6input])
    (by norm_num [modulationDeepOf, c6input, c6state, Impl.init])
    rfl
    (by norm_num [stepEdge, edgeDetectorOf, updateIntegrators, modulationDeepOf,
      c6input, c6state, Impl.init, ModulationStatus.init, BitrateParams.init])
    (by norm_num [stepEdge, edgeDetectorOf, updateIntegrators, modulationDeepOf,
      c6input, c6state, Impl.init, ModulationStatus.init, BitrateParams.init])).1
    rfl (by decide)

/-- Concrete detector state: END stage, window [10, 100] closing at clock
100 with a recorded peak at 40. -/
def c10state : Impl :=
  { Impl.init with modulationStatus := fun _ =>
    { ModulationStatus.init with
      searchStage := 2, searchStartTime := 10
      searchEndTime := 100, searchPeakTime := 40, symbolStartTime := 25 } }

/-- A flat sample at clock 100 with power above threshold. -/
def c10input : SampleInput :=
  { signalClock := 100, signalData := 1, filterData := 1, detectData := 1
    powerAverage := 1, powerLevelThreshold := 1/2 }

/-- C10 witness: a confirming sample selects the r106k entries and marks a
poll frame. -/
theorem claim_C10_witness :
    (detectModulation c10input c10state).2.frameStatus.frameType = PollFrame ∧
    (detectModulation c10input c10state).2.bitrateSel = some 0 ∧
    (detectModulation c10input c10state).2.modulationSel = some 0 := by
  have hE := sofEnd_close (c10state.bitrateParams 0) c10input.signalClock
    (stepEdge c10input c10state) (modulationDeepOf c10input)
    c10state.minimumModulationThreshold
    (updateIntegrators c10input (c10state.modulationStatus 0))
    (by norm_num [stepEdge, edgeDetectorOf, updateIntegrators, modulationDeepOf,
      c10input, c10state, Impl.init, ModulationStatus.init, BitrateParams.init])
    ⟨by decide, by decide⟩ (by decide)
  have h1 : (detectModulation c10input c10state).1 = true := by
    unfold detectModulation
    rw [if_pos (show c10input.powerAverage > c10input.powerLevelThreshold
          by norm_num [c10input]),
      if_neg (show ¬ modulationDeepOf c10input > c10state.maximumModulationThreshold
          by norm_num [modulationDeepOf, c10input, c10state, Impl.init]),
      if_neg (show ¬ (c10state.modulationStatus 0).searchStage = 0 by decide),
      if_neg (show ¬ (c10state.modulationStatus 0).searchStage = 1 by decide),
      if_pos (show (c10state.modulationStatus 0).searchStage = 2 by decide),
      hE,
      if_pos (show (updateIntegrators c10input (c10state.modulationStatus 0)).searchPeakTime ≠ 0
          by decide)]
    simp
  exact (claim_C10 c10input c10state).1 h1

end NfcB
